import Mathlib

/-!
A shallow embedding of `src/scripts/generate-orders.py`, a script that
synthesizes random e-commerce order records, serializes each as one compact
JSON line on stdout, and reports progress on stderr every 100 records.

Randomness model: the process-wide random source (Python's `random` module,
plus the entropy behind `uuid.uuid4`) is modelled as an abstract stream
`g : Nat -> Nat` of raw draws together with a position counter threaded
through the computation.  Each library primitive consumes exactly one draw:
`random.choice(xs)` picks index `draw % len(xs)`, `random.randint(a, b)`
returns `a + draw % (b - a + 1)`, and `random.random()` returns
`(draw % 2^53) / 2^53` (Python's generator produces a 53-bit fraction).
The clock `datetime.now(timezone.utc)` is modelled as a parameter `now`
counting seconds since the Unix epoch (the script formats at second
precision only).  Money values are exact rationals.
-/

/-- Fixed reference table of first names (source lines 10). -/
def FIRST_NAMES : List String :=
  ["John", "Jane", "Michael", "Sarah", "David", "Emily", "Robert", "Lisa", "William", "Jennifer"]

/-- Fixed reference table of last names (source line 11). -/
def LAST_NAMES : List String :=
  ["Doe", "Smith", "Johnson", "Williams", "Brown", "Jones", "Garcia", "Miller", "Davis", "Martinez"]

/-- Fixed joint (city, state) table (source lines 12-16). -/
def CITIES_STATES : List (String × String) :=
  [("San Francisco", "CA"), ("New York", "NY"), ("Los Angeles", "CA"), ("Chicago", "IL"),
   ("Seattle", "WA"), ("Portland", "OR"), ("Austin", "TX"), ("Denver", "CO"),
   ("Boston", "MA"), ("Miami", "FL")]

/-- Fixed channel enum (source line 17). -/
def CHANNELS : List String := ["WEB", "MOBILE", "API", "POS", "CALL_CENTER"]

/-- Fixed order-type enum (source line 18). -/
def ORDER_TYPES : List String := ["STANDARD", "GUEST", "STORE"]

/-- Fixed fulfillment-type enum (source line 19). -/
def FULFILLMENT_TYPES : List String := ["STH", "BOPS", "STS"]

/-- The 15 fixed product tuples (id, name, unit price, description),
source lines 21-37. -/
def PRODUCTS : List (Nat × String × ℚ × String) :=
  [(1000000001, "Apple AirPods Pro 2nd Gen", 249.99, "Wireless earbuds with active noise cancellation"),
   (1000000002, "Sony WH-1000XM5 Headphones", 349.99, "Premium wireless noise-canceling headphones"),
   (1000000003, "Anker USB-C Charging Cable 6ft", 19.99, "Braided nylon fast charging cable"),
   (1000000004, "Nike Air Max 270 Running Shoes", 159.99, "Lightweight running shoes with Air Max cushioning"),
   (1000000005, "Lululemon Yoga Mat 5mm", 78.00, "Non-slip yoga mat with alignment lines"),
   (1000000006, "Kindle Paperwhite 11th Gen", 149.99, "E-reader with 6.8 inch display"),
   (1000000007, "MacBook Pro 16-inch M3 Max", 3499.00, "Apple laptop with M3 Max chip"),
   (1000000008, "Dell UltraSharp 32 4K Monitor", 899.99, "32-inch 4K USB-C Hub Monitor"),
   (1000000009, "Dyson V15 Detect Vacuum", 749.99, "Cordless vacuum with laser detection"),
   (1000000010, "Samsung Galaxy S24 Ultra", 1299.99, "Flagship smartphone with S Pen"),
   (1000000011, "Bose QuietComfort Ultra", 429.00, "Premium noise canceling headphones"),
   (1000000012, "Apple Watch Series 9", 399.00, "Smartwatch with health tracking"),
   (1000000013, "Nintendo Switch OLED", 349.99, "Gaming console with OLED screen"),
   (1000000014, "Instant Pot Duo 7-in-1", 89.99, "Multi-use pressure cooker"),
   (1000000015, "Nespresso VertuoPlus", 179.00, "Coffee and espresso machine")]

/-- `random.choice(xs)`: pick the element at index `draw % len(xs)`.
For the nonempty tables of this program the modulus is always in range. -/
def choice {α : Type} [Inhabited α] (xs : List α) (draw : Nat) : α :=
  xs.getD (draw % xs.length) default

/-- `random.randint(a, b)`: uniform integer in the inclusive range `[a, b]`. -/
def randint (a b draw : Nat) : Nat := a + draw % (b - a + 1)

/-- `random.random()`: a 53-bit random fraction in `[0, 1)`. -/
def pyRandom (draw : Nat) : ℚ := ((draw % 2 ^ 53 : Nat) : ℚ) / 2 ^ 53

/-- Python's `round(q, 2)` on the exact rational value: round to a whole
number of cents.  (At the magnitudes arising here, `round(price * 0.1, 2)`
on binary floats agrees with exact rounding to cents.) -/
def round2 (q : ℚ) : ℚ := ((round (q * 100) : ℤ) : ℚ) / 100

/-- Decimal rendering padded with leading zeros to `w` digits, as Python's
format spec `05d` and `strftime` zero padding produce. -/
def padNum (w n : Nat) : String :=
  let s := toString n
  String.mk (List.replicate (w - s.length) '0') ++ s

/-- Civil date (year, month, day) of a day count since 1970-01-01,
the standard era-based Gregorian conversion used by `datetime`. -/
def civilFromDays (days : Nat) : Nat × Nat × Nat :=
  let z := days + 719468
  let era := z / 146097
  let doe := z % 146097
  let yoe := (doe - doe / 1460 + doe / 36524 - doe / 146096) / 365
  let y := yoe + era * 400
  let doy := doe - (365 * yoe + yoe / 4 - yoe / 100)
  let mp := (5 * doy + 2) / 153
  let d := doy - (153 * mp + 2) / 5 + 1
  let m := if mp < 10 then mp + 3 else mp - 9
  (if m ≤ 2 then y + 1 else y, m, d)

/-- `strftime("%Y-%m-%d")` of a UTC instant given in seconds since epoch. -/
def fmtYMD (secs : Nat) : String :=
  let c := civilFromDays (secs / 86400)
  padNum 4 c.1 ++ "-" ++ padNum 2 c.2.1 ++ "-" ++ padNum 2 c.2.2

/-- `strftime("%Y-%m-%dT%H:%M:%S")` of a UTC instant in seconds since epoch. -/
def fmtTimestamp (secs : Nat) : String :=
  let r := secs % 86400
  fmtYMD secs ++ "T" ++ padNum 2 (r / 3600) ++ ":" ++ padNum 2 (r % 3600 / 60) ++
    ":" ++ padNum 2 (r % 60)

/-- Python's `str.lower()` on the ASCII names of the reference tables,
written structurally so closed records reduce inside proofs. -/
def pyLower (s : String) : String := String.mk (s.data.map Char.toLower)

/-- `str(uuid.uuid4())`: a fresh random identifier.  The library call draws
from OS entropy; it is modelled as one draw from the same abstract stream,
rendered as text (no claim inspects its format). -/
def uuidStr (draw : Nat) : String := "uuid-" ++ toString draw

/-- The shared address shape (billing and shipping), source lines 74-84
and 93-103. -/
structure Address where
  full_name : String
  address_line1 : String
  address_line2 : Option String
  city : String
  state_province : String
  postal_code : String
  country : String
  phone_number : String
  email : String
deriving DecidableEq, Repr, Inhabited

/-- One order line, source lines 61-85. -/
structure OrderLine where
  line_number : Nat
  item_id : Nat
  item_name : String
  item_description : String
  quantity : Nat
  unit_price : ℚ
  currency : String
  tax_rate : ℚ
  discount_amount : Option ℚ
  fulfillment_type : String
  estimated_ship_date : String
  estimated_delivery_date : String
  shipping_address : Address
deriving DecidableEq, Repr, Inhabited

/-- A full order record, source lines 87-106. -/
structure Order where
  external_order_id : String
  customer_id : String
  order_type : String
  channel : String
  order_lines : List OrderLine
  billing_address : Address
  notes : String
  timestamp : String
deriving DecidableEq, Repr, Inhabited

/-- One iteration of the line loop (source lines 55-85): draws, in source
order, the product, the quantity, the discount coin, the fulfillment type,
and the shipping address's street number, postal code and the two phone
fragments.  The person identity (name, email, city, state) and the two date
strings come in from the enclosing order. -/
def genLine (g : Nat → Nat) (fullName email city state shipDate deliveryDate : String)
    (i p : Nat) : OrderLine × Nat :=
  let product := choice PRODUCTS (g p)
  let quantity := randint 1 3 (g (p + 1))
  let discount : Option ℚ :=
    if pyRandom (g (p + 2)) < 0.2 then some (round2 (product.2.2.1 * 0.1)) else none
  let fulfillment := choice FULFILLMENT_TYPES (g (p + 3))
  let line1 := toString (randint 1 999 (g (p + 4))) ++ " Main Street"
  let postal := toString (randint 10000 99999 (g (p + 5)))
  let phone := "+1-" ++ toString (randint 100 999 (g (p + 6))) ++ "-555-" ++
    toString (randint 1000 9999 (g (p + 7)))
  ({ line_number := i
     item_id := product.1
     item_name := product.2.1
     item_description := product.2.2.2
     quantity := quantity
     unit_price := product.2.2.1
     currency := "USD"
     tax_rate := 0.08
     discount_amount := discount
     fulfillment_type := fulfillment
     estimated_ship_date := shipDate
     estimated_delivery_date := deliveryDate
     shipping_address :=
       { full_name := fullName
         address_line1 := line1
         address_line2 := none
         city := city
         state_province := state
         postal_code := postal
         country := "USA"
         phone_number := phone
         email := email } }, p + 8)

/-- The `for i in range(1, num_lines + 1)` loop of source lines 55-85,
building `k` lines numbered from `i` upward. -/
def genLines (g : Nat → Nat) (fullName email city state shipDate deliveryDate : String)
    (i k p : Nat) : List OrderLine × Nat :=
  match k with
  | 0 => ([], p)
  | k + 1 =>
    let first := genLine g fullName email city state shipDate deliveryDate i p
    let rest := genLines g fullName email city state shipDate deliveryDate (i + 1) k first.2
    (first.1 :: rest.1, rest.2)

/-- `generate_order(order_num)` (source lines 40-106): draws the person
identity and joint (city, state) once, fixes the three time strings from
`now`, draws the line count uniformly from 1..3, builds the lines, then
draws the order header fields and the billing address in dict-literal
order. -/
def generate_order (g : Nat → Nat) (now : Nat) (order_num : ℤ) (p : Nat) : Order × Nat :=
  let firstName := choice FIRST_NAMES (g p)
  let lastName := choice LAST_NAMES (g (p + 1))
  let fullName := firstName ++ " " ++ lastName
  let email := pyLower firstName ++ "." ++ pyLower lastName ++ "@example.com"
  let cs := choice CITIES_STATES (g (p + 2))
  let shipDate := fmtYMD (now + 86400)
  let deliveryDate := fmtYMD (now + 4 * 86400)
  let timestamp := fmtTimestamp now
  let numLines := randint 1 3 (g (p + 3))
  let lines := genLines g fullName email cs.1 cs.2 shipDate deliveryDate 1 numLines (p + 4)
  let q := lines.2
  ({ external_order_id := uuidStr (g q)
     customer_id := "CUST-" ++ padNum 5 (randint 1 10000 (g (q + 1)))
     order_type := choice ORDER_TYPES (g (q + 2))
     channel := choice CHANNELS (g (q + 3))
     order_lines := lines.1
     billing_address :=
       { full_name := fullName
         address_line1 := toString (randint 1 999 (g (q + 4))) ++ " Main Street"
         address_line2 := none
         city := cs.1
         state_province := cs.2
         postal_code := toString (randint 10000 99999 (g (q + 5)))
         country := "USA"
         phone_number := "+1-" ++ toString (randint 100 999 (g (q + 6))) ++ "-555-" ++
           toString (randint 1000 9999 (g (q + 7)))
         email := email }
     notes := "Order #" ++ toString order_num ++ " - Generated for testing"
     timestamp := timestamp }, q + 8)

/-- JSON values, the target of `json.dumps`.  `None` serializes to `null`. -/
inductive Json where
  | null : Json
  | num : ℚ → Json
  | str : String → Json
  | arr : List Json → Json
  | obj : List (String × Json) → Json

/-- Key lookup in a serialized JSON object. -/
def Json.lookupKey : Json → String → Option Json
  | .obj fields, k => fields.lookup k
  | _, _ => none

/-- Serialization of an address sub-dict, keys in source dict-literal order. -/
def addressToJson (a : Address) : Json :=
  .obj [("full_name", .str a.full_name),
        ("address_line1", .str a.address_line1),
        ("address_line2", match a.address_line2 with | none => .null | some s => .str s),
        ("city", .str a.city),
        ("state_province", .str a.state_province),
        ("postal_code", .str a.postal_code),
        ("country", .str a.country),
        ("phone_number", .str a.phone_number),
        ("email", .str a.email)]

/-- Serialization of one order line, keys in source dict-literal order
(source lines 61-85).  A missing discount serializes as `null` under the
always-present key "discount_amount". -/
def lineToJson (l : OrderLine) : Json :=
  .obj [("line_number", .num l.line_number),
        ("item_id", .num l.item_id),
        ("item_name", .str l.item_name),
        ("item_description", .str l.item_description),
        ("quantity", .num l.quantity),
        ("unit_price", .num l.unit_price),
        ("currency", .str l.currency),
        ("tax_rate", .num l.tax_rate),
        ("discount_amount", match l.discount_amount with | none => .null | some q => .num q),
        ("fulfillment_type", .str l.fulfillment_type),
        ("estimated_ship_date", .str l.estimated_ship_date),
        ("estimated_delivery_date", .str l.estimated_delivery_date),
        ("shipping_address", addressToJson l.shipping_address)]

/-- Serialization of a whole order record (source lines 87-106). -/
def orderToJson (o : Order) : Json :=
  .obj [("external_order_id", .str o.external_order_id),
        ("customer_id", .str o.customer_id),
        ("order_type", .str o.order_type),
        ("channel", .str o.channel),
        ("order_lines", .arr (o.order_lines.map lineToJson)),
        ("billing_address", addressToJson o.billing_address),
        ("notes", .str o.notes),
        ("timestamp", .str o.timestamp)]

/-- The stderr progress notice f-string of source line 116. -/
def diagMsg (i count : Nat) : String :=
  "  Generated " ++ toString i ++ "/" ++ toString count ++ " orders..."

/-- The body of the driver loop (source lines 112-116) over an explicit
list of 1-based ordinals: each ordinal yields one serialized order on the
primary channel, and ordinals divisible by 100 append one progress notice
to the diagnostic channel. -/
def runList (g : Nat → Nat) (now count : Nat) : List Nat → Nat → List Json × List String
  | [], _ => ([], [])
  | i :: rest, p =>
    let o := generate_order g now (i : ℤ) p
    let tail := runList g now count rest o.2
    (orderToJson o.1 :: tail.1,
     (if i % 100 == 0 then [diagMsg i count] else []) ++ tail.2)

/-- The driver loop `for i in range(1, count + 1)` (source lines 112-116),
started at stream position 0.  Returns (primary stdout lines, diagnostic
stderr lines). -/
def run (g : Nat → Nat) (now count : Nat) : List Json × List String :=
  runList g now count (List.range' 1 count) 0

/-- Python whitespace characters stripped by `int(str)`. -/
def isPySpace (c : Char) : Bool :=
  c == ' ' || c == '\t' || c == '\n' || c == '\x0d' || c == '\x0b' || c == '\x0c'

/-- Digits optionally separated by single underscores, accumulating the
value; the continuation of `int()`'s decimal digit-part grammar. -/
def digitsVal : List Char → Nat → Option Nat
  | [], acc => some acc
  | '_' :: c :: rest, acc =>
    if c.isDigit then digitsVal rest (acc * 10 + (c.toNat - 48)) else none
  | ['_'], _ => none
  | c :: rest, acc =>
    if c.isDigit then digitsVal rest (acc * 10 + (c.toNat - 48)) else none

/-- A nonempty decimal digit-part (digits with single underscore
separators), as accepted by Python's `int()`. -/
def digitPart : List Char → Option Nat
  | [] => none
  | c :: rest => if c.isDigit then digitsVal rest (c.toNat - 48) else none

/-- Python's `int(str)` on ASCII input: strip surrounding whitespace, an
optional sign, then a nonempty decimal digit-part; anything else raises
`ValueError` (modelled as `none`). -/
def pyParseInt (s : String) : Option ℤ :=
  let cs := ((s.toList.dropWhile isPySpace).reverse.dropWhile isPySpace).reverse
  match cs with
  | '+' :: rest => (digitPart rest).map (fun n => (n : ℤ))
  | '-' :: rest => (digitPart rest).map (fun n => -(n : ℤ))
  | other => (digitPart other).map (fun n => (n : ℤ))

/-- `main()` (source lines 109-116): parse `argv[1]` as the count
(default 10); a parse failure raises before the loop runs, so no output is
produced; otherwise run the driver loop.  `range(1, count + 1)` is empty
for non-positive counts, hence `Int.toNat`. -/
def mainProg (g : Nat → Nat) (now : Nat) (argv : List String) :
    Except String (List Json × List String) :=
  match argv with
  | [] => .ok (run g now 10)
  | a :: _ =>
    match pyParseInt a with
    | none => .error ("ValueError: invalid literal for int() with base 10: " ++ a)
    | some k => .ok (run g now k.toNat)

/-- `random.choice` on a nonempty list returns one of its elements. -/
theorem choice_mem {α : Type} [Inhabited α] (xs : List α) (h : xs ≠ []) (k : Nat) :
    choice xs k ∈ xs := by
  have hl : 0 < xs.length := List.length_pos.mpr h
  have hk : k % xs.length < xs.length := Nat.mod_lt _ hl
  unfold choice
  rw [List.getD_eq_getElem xs default hk]
  exact List.getElem_mem hk

/-- `random.randint(a, b)` is at least `a`. -/
theorem randint_lower (a b k : Nat) : a ≤ randint a b k := Nat.le_add_right a _

/-- `random.randint(a, b)` is at most `b` when the range is nonempty. -/
theorem randint_upper (a b k : Nat) (hab : a ≤ b) : randint a b k ≤ b := by
  have h : k % (b - a + 1) < b - a + 1 := Nat.mod_lt _ (Nat.succ_pos _)
  have h2 : k % (b - a + 1) ≤ b - a := Nat.lt_succ_iff.mp h
  calc a + k % (b - a + 1) ≤ a + (b - a) := Nat.add_le_add_left h2 a
    _ = b := Nat.add_sub_cancel' hab

/-- Every line that `genLines` produces is produced by `genLine` with the
same shared person/date values, at some index and stream position. -/
theorem genLines_mem_ex (g : Nat → Nat) (fn em ci st sd dd : String) :
    ∀ (k i p : Nat) (l : OrderLine), l ∈ (genLines g fn em ci st sd dd i k p).1 →
      ∃ j q, l = (genLine g fn em ci st sd dd j q).1 := by
  intro k
  induction k with
  | zero => intro i p l hl; simp [genLines] at hl
  | succ k ih =>
    intro i p l hl
    simp only [genLines, List.mem_cons] at hl
    rcases hl with hl | hl
    · exact ⟨i, p, hl⟩
    · exact ih (i + 1) _ l hl

/-- `genLines` produces exactly `k` lines. -/
theorem genLines_length (g : Nat → Nat) (fn em ci st sd dd : String) :
    ∀ (k i p : Nat), (genLines g fn em ci st sd dd i k p).1.length = k := by
  intro k
  induction k with
  | zero => intro i p; rfl
  | succ k ih => intro i p; simp [genLines, ih]

/-- The `line_number` fields of `genLines` are `i, i+1, ..., i+k-1` in order. -/
theorem genLines_line_numbers (g : Nat → Nat) (fn em ci st sd dd : String) :
    ∀ (k i p : Nat),
      (genLines g fn em ci st sd dd i k p).1.map OrderLine.line_number = List.range' i k := by
  intro k
  induction k with
  | zero => intro i p; rfl
  | succ k ih =>
    intro i p
    simp only [genLines, List.map_cons, List.range'_succ, ih]
    rfl

/-- The shipping address of a generated line carries the shared person
identity: name, email, joint city/state, fixed country, absent second line. -/
theorem genLine_shipping_identity (g : Nat → Nat) (fn em ci st sd dd : String) (j q : Nat) :
    (genLine g fn em ci st sd dd j q).1.shipping_address.full_name = fn ∧
    (genLine g fn em ci st sd dd j q).1.shipping_address.email = em ∧
    (genLine g fn em ci st sd dd j q).1.shipping_address.city = ci ∧
    (genLine g fn em ci st sd dd j q).1.shipping_address.state_province = st ∧
    (genLine g fn em ci st sd dd j q).1.shipping_address.country = "USA" ∧
    (genLine g fn em ci st sd dd j q).1.shipping_address.address_line2 = none :=
  ⟨rfl, rfl, rfl, rfl, rfl, rfl⟩

/-- The (id, name, price, description) of a generated line is one of the 15
product tuples, never a mismatched combination. -/
theorem genLine_product (g : Nat → Nat) (fn em ci st sd dd : String) (j q : Nat) :
    ((genLine g fn em ci st sd dd j q).1.item_id,
      (genLine g fn em ci st sd dd j q).1.item_name,
      (genLine g fn em ci st sd dd j q).1.unit_price,
      (genLine g fn em ci st sd dd j q).1.item_description) ∈ PRODUCTS := by
  have h : ((genLine g fn em ci st sd dd j q).1.item_id,
      (genLine g fn em ci st sd dd j q).1.item_name,
      (genLine g fn em ci st sd dd j q).1.unit_price,
      (genLine g fn em ci st sd dd j q).1.item_description) = choice PRODUCTS (g q) := rfl
  rw [h]
  exact choice_mem PRODUCTS (by simp [PRODUCTS]) (g q)

/-- The discount of a generated line is absent or one tenth of that line's
unit price rounded to cents. -/
theorem genLine_discount (g : Nat → Nat) (fn em ci st sd dd : String) (j q : Nat) :
    (genLine g fn em ci st sd dd j q).1.discount_amount = none ∨
    (genLine g fn em ci st sd dd j q).1.discount_amount =
      some (round2 ((genLine g fn em ci st sd dd j q).1.unit_price * 0.1)) := by
  by_cases h : pyRandom (g (q + 2)) < 0.2
  · right
    simp only [genLine, h, if_pos]
  · left
    simp only [genLine, h, if_neg, not_false_iff]

/-- The order lines of `generate_order` are exactly `genLines` applied to
the person identity drawn once up front, with 1-based indices and a line
count drawn by `randint(1, 3)`. -/
theorem generate_order_lines_eq (g : Nat → Nat) (now : Nat) (n : ℤ) (p : Nat) :
    (generate_order g now n p).1.order_lines =
      (genLines g
        (choice FIRST_NAMES (g p) ++ " " ++ choice LAST_NAMES (g (p + 1)))
        (pyLower (choice FIRST_NAMES (g p)) ++ "." ++
          pyLower (choice LAST_NAMES (g (p + 1))) ++ "@example.com")
        (choice CITIES_STATES (g (p + 2))).1
        (choice CITIES_STATES (g (p + 2))).2
        (fmtYMD (now + 86400)) (fmtYMD (now + 4 * 86400))
        1 (randint 1 3 (g (p + 3))) (p + 4)).1 := rfl

/-- The billing address of `generate_order` carries the same person identity
values that the lines receive. -/
theorem generate_order_billing (g : Nat → Nat) (now : Nat) (n : ℤ) (p : Nat) :
    (generate_order g now n p).1.billing_address.full_name =
        choice FIRST_NAMES (g p) ++ " " ++ choice LAST_NAMES (g (p + 1)) ∧
    (generate_order g now n p).1.billing_address.email =
        pyLower (choice FIRST_NAMES (g p)) ++ "." ++
          pyLower (choice LAST_NAMES (g (p + 1))) ++ "@example.com" ∧
    (generate_order g now n p).1.billing_address.city =
        (choice CITIES_STATES (g (p + 2))).1 ∧
    (generate_order g now n p).1.billing_address.state_province =
        (choice CITIES_STATES (g (p + 2))).2 ∧
    (generate_order g now n p).1.billing_address.country = "USA" ∧
    (generate_order g now n p).1.billing_address.address_line2 = none :=
  ⟨rfl, rfl, rfl, rfl, rfl, rfl⟩

/-- The driver loop emits one primary line per ordinal processed. -/
theorem runList_length (g : Nat → Nat) (now count : Nat) :
    ∀ (l : List Nat) (p : Nat), (runList g now count l p).1.length = l.length := by
  intro l
  induction l with
  | nil => intro p; rfl
  | cons i rest ih => intro p; simp [runList, ih]

/-- The diagnostic lines of the driver loop are exactly one progress notice
per processed ordinal divisible by 100, in order. -/
theorem runList_diag (g : Nat → Nat) (now count : Nat) :
    ∀ (l : List Nat) (p : Nat),
      (runList g now count l p).2 =
        (l.filter (fun i => i % 100 == 0)).map (fun i => diagMsg i count) := by
  intro l
  induction l with
  | nil => intro p; rfl
  | cons i rest ih =>
    intro p
    by_cases h : i % 100 == 0
    · simp [runList, ih, List.filter_cons, h]
    · simp [runList, ih, List.filter_cons, h]

/-- There are `n / 100` multiples of 100 among the ordinals `1..n`. -/
theorem multiples_of_100_count :
    ∀ n : Nat, ((List.range' 1 n).filter (fun i => i % 100 == 0)).length = n / 100 := by
  intro n
  induction n with
  | zero => rfl
  | succ m ih =>
    have hc : List.range' 1 (m + 1) = List.range' 1 m ++ [1 + m] := by
      rw [List.range'_concat]
      simp
    rw [hc, List.filter_append, List.length_append, ih, Nat.succ_div]
    have : ((1 + m) % 100 == 0) = decide (100 ∣ m + 1) := by
      rw [Nat.add_comm 1 m]
      by_cases h : 100 ∣ m + 1
      · simp [h, Nat.dvd_iff_mod_eq_zero.mp h]
      · have h2 : (m + 1) % 100 ≠ 0 := fun hz => h (Nat.dvd_iff_mod_eq_zero.mpr hz)
        simp [h, h2]
    by_cases h : 100 ∣ m + 1
    · simp [this, h]
    · simp [this, h]

/-- On the concrete stream `fun k => k` (at order number 1, clock 0) the
generated order has one line, so its `head!` is a member; used to
instantiate membership hypotheses at a concrete input. -/
theorem firstLine_mem :
    (generate_order (fun k => k) 0 1 0).1.order_lines.head! ∈
      (generate_order (fun k => k) 0 1 0).1.order_lines :=
  List.mem_iff_get.mpr
    ⟨⟨0, by
        rw [(rfl : (generate_order (fun k => k) 0 1 0).1.order_lines.length = 1)]
        exact Nat.zero_lt_one⟩, rfl⟩

/-- C1: `run(count)` writes exactly `count` serialized order lines to the
primary channel and one progress notice per 1-based ordinal divisible by
100 to the diagnostic channel (hence `count / 100` notices); in particular
`count = 0` yields no output on either channel and `count = 250` yields 250
primary lines and exactly the two notices at ordinals 100 and 200. -/
theorem run_emits_count_lines_and_progress_notices (g : Nat → Nat) (now count : Nat) :
    (run g now count).1.length = count ∧
    (run g now count).2 =
      ((List.range' 1 count).filter (fun i => i % 100 == 0)).map (fun i => diagMsg i count) ∧
    (run g now count).2.length = count / 100 ∧
    (run g now 0).1.length = 0 ∧ (run g now 0).2 = [] ∧
    (run g now 250).1.length = 250 ∧
    (run g now 250).2 = [diagMsg 100 250, diagMsg 200 250] := by
  refine ⟨?_, ?_, ?_, ?_, ?_, ?_, ?_⟩
  · rw [run, runList_length, List.length_range']
  · exact runList_diag g now count _ 0
  · rw [run, runList_diag, List.length_map, multiples_of_100_count]
  · rw [run, runList_length]
    rfl
  · rw [run, runList_diag]
    rfl
  · rw [run, runList_length, List.length_range']
  · rw [run, runList_diag]
    rfl

/-- C2: every generated order has between 1 and 3 order lines, for every
order number and every state of the random source. -/
theorem order_lines_length_bounds (g : Nat → Nat) (now : Nat) (n : ℤ) (p : Nat) :
    1 ≤ (generate_order g now n p).1.order_lines.length ∧
    (generate_order g now n p).1.order_lines.length ≤ 3 := by
  rw [generate_order_lines_eq, genLines_length]
  exact ⟨randint_lower 1 3 _, randint_upper 1 3 _ (by decide)⟩

/-- C3: the `line_number` fields of a generated order, in sequence order,
are exactly `1, 2, ..., len(order_lines)` — 1-based, sequential, with no
gaps or repeats. -/
theorem line_numbers_sequential (g : Nat → Nat) (now : Nat) (n : ℤ) (p : Nat) :
    (generate_order g now n p).1.order_lines.map OrderLine.line_number =
      List.range' 1 (generate_order g now n p).1.order_lines.length := by
  rw [generate_order_lines_eq, genLines_line_numbers, genLines_length]

/-- C4: the billing address and every line's shipping address share the
same person identity: full name, email, and the joint (city, state) pair,
derived once per order and reused. -/
theorem addresses_share_person_identity (g : Nat → Nat) (now : Nat) (n : ℤ) (p : Nat) :
    ∀ l ∈ (generate_order g now n p).1.order_lines,
      l.shipping_address.full_name = (generate_order g now n p).1.billing_address.full_name ∧
      l.shipping_address.email = (generate_order g now n p).1.billing_address.email ∧
      l.shipping_address.city = (generate_order g now n p).1.billing_address.city ∧
      l.shipping_address.state_province =
        (generate_order g now n p).1.billing_address.state_province := by
  intro l hl
  rw [generate_order_lines_eq] at hl
  obtain ⟨j, q, rfl⟩ := genLines_mem_ex g _ _ _ _ _ _ _ _ _ l hl
  obtain ⟨h1, h2, h3, h4, h5, h6⟩ := genLine_shipping_identity g _ _ _ _ _ _ j q
  obtain ⟨b1, b2, b3, b4, b5, b6⟩ := generate_order_billing g now n p
  exact ⟨h1.trans b1.symm, h2.trans b2.symm, h3.trans b3.symm, h4.trans b4.symm⟩

/-- C4 witness: the identity invariant, evaluated on the concrete stream
`fun k => k` at order number 1 and clock 0, for the order's first line. -/
theorem addresses_share_person_identity_witness :
    ((generate_order (fun k => k) 0 1 0).1.order_lines.head!).shipping_address.full_name =
      (generate_order (fun k => k) 0 1 0).1.billing_address.full_name ∧
    ((generate_order (fun k => k) 0 1 0).1.order_lines.head!).shipping_address.email =
      (generate_order (fun k => k) 0 1 0).1.billing_address.email ∧
    ((generate_order (fun k => k) 0 1 0).1.order_lines.head!).shipping_address.city =
      (generate_order (fun k => k) 0 1 0).1.billing_address.city ∧
    ((generate_order (fun k => k) 0 1 0).1.order_lines.head!).shipping_address.state_province =
      (generate_order (fun k => k) 0 1 0).1.billing_address.state_province :=
  addresses_share_person_identity (fun k => k) 0 1 0 _ firstLine_mem

/-- C5 counterexample: on the concrete stream `fun k => k`, the first
line's shipping address differs from the billing address (postal codes
"10009" vs "10017"), so shipping addresses do NOT equal the billing
address in every field. -/
theorem shipping_not_all_fields_equal_billing :
    ¬ ∀ l ∈ (generate_order (fun k => k) 0 1 0).1.order_lines,
        l.shipping_address = (generate_order (fun k => k) 0 1 0).1.billing_address := by
  intro h
  have he := h _ firstLine_mem
  have h1 : ((generate_order (fun k => k) 0 1 0).1.order_lines.head!).shipping_address.postal_code
      = "10009" := rfl
  have h2 : (generate_order (fun k => k) 0 1 0).1.billing_address.postal_code = "10017" := rfl
  rw [he] at h1
  exact absurd (h1.symm.trans h2) (by decide)

/-- C5 (amended): every line's shipping address shares the person/location
identity of the billing address — full name, email, city, state, country
and the absent second address line — while the street number, postal code
and phone number are drawn independently per address and may differ. -/
theorem shipping_shares_identity_fields (g : Nat → Nat) (now : Nat) (n : ℤ) (p : Nat) :
    ∀ l ∈ (generate_order g now n p).1.order_lines,
      l.shipping_address.full_name = (generate_order g now n p).1.billing_address.full_name ∧
      l.shipping_address.email = (generate_order g now n p).1.billing_address.email ∧
      l.shipping_address.city = (generate_order g now n p).1.billing_address.city ∧
      l.shipping_address.state_province =
        (generate_order g now n p).1.billing_address.state_province ∧
      l.shipping_address.country = (generate_order g now n p).1.billing_address.country ∧
      l.shipping_address.address_line2 =
        (generate_order g now n p).1.billing_address.address_line2 := by
  intro l hl
  rw [generate_order_lines_eq] at hl
  obtain ⟨j, q, rfl⟩ := genLines_mem_ex g _ _ _ _ _ _ _ _ _ l hl
  obtain ⟨h1, h2, h3, h4, h5, h6⟩ := genLine_shipping_identity g _ _ _ _ _ _ j q
  obtain ⟨b1, b2, b3, b4, b5, b6⟩ := generate_order_billing g now n p
  exact ⟨h1.trans b1.symm, h2.trans b2.symm, h3.trans b3.symm, h4.trans b4.symm,
    h5.trans b5.symm, h6.trans b6.symm⟩

/-- C5 witness: the shared identity fields, evaluated on the concrete
stream `fun k => k` for the order's first line. -/
theorem shipping_shares_identity_fields_witness :
    ((generate_order (fun k => k) 0 1 0).1.order_lines.head!).shipping_address.full_name =
      (generate_order (fun k => k) 0 1 0).1.billing_address.full_name ∧
    ((generate_order (fun k => k) 0 1 0).1.order_lines.head!).shipping_address.email =
      (generate_order (fun k => k) 0 1 0).1.billing_address.email ∧
    ((generate_order (fun k => k) 0 1 0).1.order_lines.head!).shipping_address.city =
      (generate_order (fun k => k) 0 1 0).1.billing_address.city ∧
    ((generate_order (fun k => k) 0 1 0).1.order_lines.head!).shipping_address.state_province =
      (generate_order (fun k => k) 0 1 0).1.billing_address.state_province ∧
    ((generate_order (fun k => k) 0 1 0).1.order_lines.head!).shipping_address.country =
      (generate_order (fun k => k) 0 1 0).1.billing_address.country ∧
    ((generate_order (fun k => k) 0 1 0).1.order_lines.head!).shipping_address.address_line2 =
      (generate_order (fun k => k) 0 1 0).1.billing_address.address_line2 :=
  shipping_shares_identity_fields (fun k => k) 0 1 0 _ firstLine_mem

/-- C6: every line's (item_id, item_name, unit_price, item_description) is
one of the 15 fixed product tuples, never a mismatched combination. -/
theorem line_product_tuple_in_table (g : Nat → Nat) (now : Nat) (n : ℤ) (p : Nat) :
    ∀ l ∈ (generate_order g now n p).1.order_lines,
      (l.item_id, l.item_name, l.unit_price, l.item_description) ∈ PRODUCTS := by
  intro l hl
  rw [generate_order_lines_eq] at hl
  obtain ⟨j, q, rfl⟩ := genLines_mem_ex g _ _ _ _ _ _ _ _ _ l hl
  exact genLine_product g _ _ _ _ _ _ j q

/-- C6 witness: the product tuple of the first line on the concrete stream
`fun k => k` is in the reference table. -/
theorem line_product_tuple_in_table_witness :
    (((generate_order (fun k => k) 0 1 0).1.order_lines.head!).item_id,
      ((generate_order (fun k => k) 0 1 0).1.order_lines.head!).item_name,
      ((generate_order (fun k => k) 0 1 0).1.order_lines.head!).unit_price,
      ((generate_order (fun k => k) 0 1 0).1.order_lines.head!).item_description) ∈ PRODUCTS :=
  line_product_tuple_in_table (fun k => k) 0 1 0 _ firstLine_mem

/-- C7: every line's discount is either absent or exactly
`round(unit_price * 0.1, 2)` for that same line's unit price. -/
theorem discount_absent_or_tenth_of_price (g : Nat → Nat) (now : Nat) (n : ℤ) (p : Nat) :
    ∀ l ∈ (generate_order g now n p).1.order_lines,
      l.discount_amount = none ∨ l.discount_amount = some (round2 (l.unit_price * 0.1)) := by
  intro l hl
  rw [generate_order_lines_eq] at hl
  obtain ⟨j, q, rfl⟩ := genLines_mem_ex g _ _ _ _ _ _ _ _ _ l hl
  exact genLine_discount g _ _ _ _ _ _ j q

/-- C7 witness: the discount disjunction for the first line on the
concrete stream `fun k => k`. -/
theorem discount_absent_or_tenth_of_price_witness :
    ((generate_order (fun k => k) 0 1 0).1.order_lines.head!).discount_amount = none ∨
    ((generate_order (fun k => k) 0 1 0).1.order_lines.head!).discount_amount =
      some (round2 (((generate_order (fun k => k) 0 1 0).1.order_lines.head!).unit_price * 0.1)) :=
  discount_absent_or_tenth_of_price (fun k => k) 0 1 0 _ firstLine_mem

/-- C8: a non-numeric count argument makes `main` fail: `int()` raises, the
process terminates abnormally, and no order record is emitted on the
primary channel. -/
theorem nonnumeric_count_aborts_before_output (g : Nat → Nat) (now : Nat) (a : String)
    (rest : List String) (h : pyParseInt a = none) :
    mainProg g now (a :: rest) =
      .error ("ValueError: invalid literal for int() with base 10: " ++ a) ∧
    ∀ out, mainProg g now (a :: rest) ≠ .ok out := by
  constructor
  · simp [mainProg, h]
  · intro out hok
    simp [mainProg, h] at hok

/-- C8 witness: the argument "abc" does not parse, and `main` errors out
with no output. -/
theorem nonnumeric_count_aborts_before_output_witness :
    pyParseInt "abc" = none ∧
    (mainProg (fun k => k) 0 ["abc"] =
        .error ("ValueError: invalid literal for int() with base 10: " ++ "abc") ∧
      ∀ out, mainProg (fun k => k) 0 ["abc"] ≠ .ok out) :=
  ⟨rfl, nonnumeric_count_aborts_before_output (fun k => k) 0 "abc" [] rfl⟩

/-- C9: the order number is used only for the notes text: from the same
random-source state and clock instant, two calls with different order
numbers advance the source identically and produce records identical in
every field except `notes`. -/
theorem order_num_only_affects_notes (g : Nat → Nat) (now : Nat) (n1 n2 : ℤ) (p : Nat) :
    (generate_order g now n1 p).2 = (generate_order g now n2 p).2 ∧
    (generate_order g now n1 p).1 =
      { (generate_order g now n2 p).1 with
          notes := "Order #" ++ toString n1 ++ " - Generated for testing" } :=
  ⟨rfl, rfl⟩

/-- C10: the serialized form of every generated line carries the key
"discount_amount" unconditionally; when no discount was drawn the value is
`null` rather than the key being omitted. -/
theorem discount_key_always_serialized (g : Nat → Nat) (now : Nat) (n : ℤ) (p : Nat) :
    ∀ l ∈ (generate_order g now n p).1.order_lines,
      (lineToJson l).lookupKey "discount_amount" =
        some (match l.discount_amount with | none => Json.null | some q => Json.num q) ∧
      (l.discount_amount = none →
        (lineToJson l).lookupKey "discount_amount" = some Json.null) := by
  intro l hl
  have h1 : (lineToJson l).lookupKey "discount_amount" =
      some (match l.discount_amount with | none => Json.null | some q => Json.num q) := rfl
  refine ⟨h1, fun h => ?_⟩
  rw [h] at h1
  exact h1

/-- C10 witness: the serialized first line on the concrete stream
`fun k => k` carries the "discount_amount" key. -/
theorem discount_key_always_serialized_witness :
    (lineToJson ((generate_order (fun k => k) 0 1 0).1.order_lines.head!)).lookupKey
        "discount_amount" =
      some (match ((generate_order (fun k => k) 0 1 0).1.order_lines.head!).discount_amount with
        | none => Json.null | some q => Json.num q) ∧
    (((generate_order (fun k => k) 0 1 0).1.order_lines.head!).discount_amount = none →
      (lineToJson ((generate_order (fun k => k) 0 1 0).1.order_lines.head!)).lookupKey
          "discount_amount" = some Json.null) :=
  discount_key_always_serialized (fun k => k) 0 1 0 _ firstLine_mem
